import Mathlib

/-!
Verification of the beernews incremental aggregation pipeline against its
specification.  Shallow embedding of `scripts/scraper_metrics.py`,
`scripts/scraper.py` and `data.py`: Python strings become lists of
characters, dicts become insertion-ordered association lists,
`datetime.now()` values are passed in as explicit parameters, and file
persistence becomes explicit state passing.  Console printing is dropped.
-/

/-- Python strings, modelled as their list of characters. -/
abbrev Str := List Char

/-- Dict lookup (`d[k]`, `d.get(k)`, `k in d`): the binding of the key, if any. -/
def lookupA {α : Type} (k : Str) : List (Str × α) → Option α
  | [] => none
  | (k', v) :: rest => if k = k' then some v else lookupA k rest

/-- Dict update of an existing key in place (`d[k] = f(d[k])`), preserving
insertion order; unchanged when the key is absent. -/
def updateA {α : Type} (k : Str) (f : α → α) : List (Str × α) → List (Str × α)
  | [] => []
  | (k', v) :: rest => if k = k' then (k', f v) :: rest else (k', v) :: updateA k f rest

/-- Python `l[-n:]`: the last `n` elements (the whole list when shorter). -/
def lastN {α : Type} (n : Nat) (l : List α) : List α := l.drop (l.length - n)

/-! ## Metrics Ledger (`scripts/scraper_metrics.py`, class ScraperMetrics) -/

/-- One entry of a source's bounded error list: a time and a message. -/
structure ErrorEntry where
  time : Str
  error : Str
deriving DecidableEq

/-- The per-source record in `self.metrics["sources"]` (scraper_metrics.py,
lines 44-53). -/
structure SourceMetric where
  technique : Str
  attempts : Nat
  successes : Nat
  items_found : Nat
  errors : List ErrorEntry
  first_seen : Str
  last_attempt : Option Str
deriving DecidableEq

/-- A source's per-run outcome inside `current_run["sources"]`
(scraper_metrics.py, lines 60-65). -/
structure RunSource where
  success : Bool
  items : Nat
  error : Option Str
deriving DecidableEq

/-- The open run record `self.current_run` (scraper_metrics.py, lines 37-40). -/
structure CurrentRun where
  started_at : Str
  sources : List (Str × RunSource)
deriving DecidableEq

/-- A closed run appended to `self.metrics["runs"]` (scraper_metrics.py,
lines 93-98). -/
structure RunRecord where
  started_at : Str
  sources : List (Str × RunSource)
  ended_at : Str
  total_items : Nat
deriving DecidableEq

/-- The whole ScraperMetrics state: `self.metrics` (persisted dict) together
with the optional `self.current_run` attribute (`"current_run" in dir(self)`
becomes `current_run ≠ none`). -/
structure ScraperMetrics where
  sources : List (Str × SourceMetric)
  runs : List RunRecord
  created_at : Str
  current_run : Option CurrentRun
deriving DecidableEq

/-- The freshly loaded, empty ledger (`_load` fallback, scraper_metrics.py,
lines 23-27). -/
def freshMetrics (created : Str) : ScraperMetrics :=
  { sources := [], runs := [], created_at := created, current_run := none }

/-- `record_run_start` (scraper_metrics.py, lines 35-40). -/
def record_run_start (now : Str) (m : ScraperMetrics) : ScraperMetrics :=
  { m with current_run := some { started_at := now, sources := [] } }

/-- `record_source_attempt` (scraper_metrics.py, lines 42-65): create the
SourceMetric on first call, increment `attempts`, stamp `last_attempt`, and
open an entry in the current run when one is running. -/
def record_source_attempt (now source_name technique : Str)
    (m : ScraperMetrics) : ScraperMetrics :=
  let sources :=
    match lookupA source_name m.sources with
    | none => m.sources ++
        [(source_name,
          { technique := technique, attempts := 0, successes := 0,
            items_found := 0, errors := [], first_seen := now,
            last_attempt := none })]
    | some _ => m.sources
  let sources := updateA source_name
    (fun sm => { sm with attempts := sm.attempts + 1, last_attempt := some now })
    sources
  let current_run :=
    match m.current_run with
    | none => none
    | some cr =>
      match lookupA source_name cr.sources with
      | some _ => some cr
      | none => some { cr with sources := cr.sources ++
          [(source_name, { success := false, items := 0, error := none })] }
  { m with sources := sources, current_run := current_run }

/-- `record_source_success` (scraper_metrics.py, lines 67-75): increment
`successes` and add to `items_found` only when the source exists; mark the
current-run entry successful when one is open. -/
def record_source_success (source_name : Str) (items_found : Nat)
    (m : ScraperMetrics) : ScraperMetrics :=
  let sources :=
    match lookupA source_name m.sources with
    | some _ => updateA source_name
        (fun sm =>
          { sm with
            successes := sm.successes + 1
            items_found := sm.items_found + items_found })
        m.sources
    | none => m.sources
  let current_run :=
    match m.current_run with
    | none => none
    | some cr =>
      match lookupA source_name cr.sources with
      | some _ =>
        let srcs := updateA source_name
          (fun rs => { rs with success := true, items := items_found }) cr.sources
        some { cr with sources := srcs }
      | none => some cr
  { m with sources := sources, current_run := current_run }

/-- `record_source_error` (scraper_metrics.py, lines 77-89): append to the
bounded error list (last 10 kept) only when the source exists; note the error
in the current-run entry when one is open and tracks the source. -/
def record_source_error (now source_name error : Str)
    (m : ScraperMetrics) : ScraperMetrics :=
  let sources :=
    match lookupA source_name m.sources with
    | some _ => updateA source_name
        (fun sm =>
          { sm with
            errors := lastN 10 (sm.errors ++ [{ time := now, error := error }]) })
        m.sources
    | none => m.sources
  let current_run :=
    match m.current_run with
    | none => none
    | some cr =>
      match lookupA source_name cr.sources with
      | some _ =>
        let srcs := updateA source_name
          (fun rs => { rs with error := some error }) cr.sources
        some { cr with sources := srcs }
      | none => some cr
  { m with sources := sources, current_run := current_run }

/-- `record_run_end` (scraper_metrics.py, lines 91-99): close the current run,
append it to the bounded run history (last 50 kept), delete `current_run`. -/
def record_run_end (now : Str) (total_items : Nat)
    (m : ScraperMetrics) : ScraperMetrics :=
  match m.current_run with
  | none => m
  | some cr =>
    { m with
      runs := lastN 50 (m.runs ++
        [{ started_at := cr.started_at, sources := cr.sources,
           ended_at := now, total_items := total_items }]),
      current_run := none }

/-- One recorded call against the Metrics Ledger, for reasoning about call
sequences. -/
inductive MetricsOp where
  | runStart (now : Str)
  | attempt (now source technique : Str)
  | success (source : Str) (items : Nat)
  | error (now source msg : Str)
  | runEnd (now : Str) (total : Nat)
deriving DecidableEq

/-- Apply one recorded call. -/
def applyOp (m : ScraperMetrics) : MetricsOp → ScraperMetrics
  | .runStart now => record_run_start now m
  | .attempt now s t => record_source_attempt now s t m
  | .success s i => record_source_success s i m
  | .error now s msg => record_source_error now s msg m
  | .runEnd now tot => record_run_end now tot m

/-- Apply a sequence of calls in order. -/
def applyOps (m : ScraperMetrics) (ops : List MetricsOp) : ScraperMetrics :=
  ops.foldl applyOp m

/-- The `attempts` counter currently stored for a source (0 when absent). -/
def attemptsOf (s : Str) (m : ScraperMetrics) : Nat :=
  match lookupA s m.sources with
  | some sm => sm.attempts
  | none => 0

/-- The `successes` counter currently stored for a source (0 when absent). -/
def successesOf (s : Str) (m : ScraperMetrics) : Nat :=
  match lookupA s m.sources with
  | some sm => sm.successes
  | none => 0

/-- Whether an op is `record_source_attempt` for the given source. -/
def opIsAttemptFor (s : Str) : MetricsOp → Bool
  | .attempt _ s' _ => decide (s' = s)
  | _ => false

/-- Whether an op is `record_source_success` for the given source. -/
def opIsSuccessFor (s : Str) : MetricsOp → Bool
  | .success s' _ => decide (s' = s)
  | _ => false

/-- How many `record_source_attempt` calls for the source a sequence makes. -/
def attemptCalls (s : Str) (ops : List MetricsOp) : Nat :=
  ops.countP (opIsAttemptFor s)

/-- How many `record_source_success` calls for the source a sequence makes. -/
def successCalls (s : Str) (ops : List MetricsOp) : Nat :=
  ops.countP (opIsSuccessFor s)

/-! ## Metrics summary (`get_summary`, scraper_metrics.py, lines 101-156) -/

/-- One source's entry in the summary.  `success_rate` and
`recent_success_rate` are kept as exact rationals (the Python source rounds
them to one decimal for display only after the `status` comparison, which
uses the unrounded value). -/
structure SourceSummary where
  technique : Str
  attempts : Nat
  successes : Nat
  success_rate : ℚ
  items_found : Nat
  items_per_success : ℚ
  recent_success_rate : ℚ
  recent_items : Nat
  last_attempt : Option Str
  status : Str
deriving DecidableEq

/-- The body of the `get_summary` per-source loop (scraper_metrics.py,
lines 114-143). -/
def sourceSummaryOf (runs : List RunRecord) (source_name : Str)
    (data : SourceMetric) : SourceSummary :=
  let attempts := data.attempts
  let successes := data.successes
  let items := data.items_found
  let success_rate : ℚ :=
    if attempts > 0 then (successes : ℚ) / (attempts : ℚ) * 100 else 0
  let items_per_success : ℚ :=
    if successes > 0 then (items : ℚ) / (successes : ℚ) else 0
  let recent_runs :=
    lastN 5 (runs.filter (fun r => (lookupA source_name r.sources).isSome))
  let recent_successes := recent_runs.countP
    (fun r => match lookupA source_name r.sources with
              | some sd => sd.success
              | none => false)
  let recent_items := (recent_runs.map
    (fun r => match lookupA source_name r.sources with
              | some sd => if sd.success then sd.items else 0
              | none => 0)).sum
  { technique := data.technique
    attempts := attempts
    successes := successes
    success_rate := success_rate
    items_found := items
    items_per_success := items_per_success
    recent_success_rate :=
      if recent_runs.length > 0 then
        (recent_successes : ℚ) / (recent_runs.length : ℚ) * 100
      else 0
    recent_items := recent_items
    last_attempt := data.last_attempt
    status :=
      if success_rate > 50 then "active".data
      else if attempts > 5 then "struggling".data
      else "new".data }

/-- The per-source part of `get_summary` (the `overall` totals, which no claim
mentions, are omitted). -/
def get_summary (m : ScraperMetrics) : List (Str × SourceSummary) :=
  m.sources.map (fun p => (p.1, sourceSummaryOf m.runs p.1 p.2))

/-! ## Freshness classifier (`data.py`, `load_beers_from_untappd`,
lines 754-768)

Timestamps are modelled as seconds (`Nat`); the source stores ISO strings and
round-trips them through `datetime.fromisoformat(x.isoformat())`, which is the
identity. -/

/-- The history lookup-or-write step for one identity key
(`beer_history.get(history_key)` …, data.py lines 754-764): returns the
`first_seen` used for the beer and the updated history ledger.  A stored entry
is returned unchanged; an absent key is written with the observation time
(Python dict insertion appends the new key). -/
def classifyBeer (hist : List (Str × Nat)) (key : Str) (observedAt : Nat) :
    Nat × List (Str × Nat) :=
  match lookupA key hist with
  | some fs => (fs, hist)
  | none => (observedAt, hist ++ [(key, observedAt)])

/-- The identity key, beer name then a pipe then brewery (data.py line 755). -/
def historyKey (beer_name brewery : Str) : Str :=
  beer_name ++ '|' :: brewery

/-- Python `(now - first_seen).days` for `first_seen ≤ now`: whole elapsed
days, rounded down (data.py line 767). -/
def daysSinceFirstSeen (now first_seen : Nat) : Nat :=
  (now - first_seen) / 86400

/-- `is_new = days_since_first_seen <= 7` (data.py line 768). -/
def isNewBeer (now first_seen : Nat) : Bool :=
  daysSinceFirstSeen now first_seen ≤ 7

/-! ## Content hash (`scripts/scraper.py`, `get_content_hash`, lines 72-74)

The source computes `hashlib.md5(content.encode()).hexdigest()`.  MD5 is
embedded in full (RFC 1321) over the UTF-8 bytes of the content; all 32-bit
words are `Nat` values kept below `2^32` by explicit `% 4294967296`. -/

/-- UTF-8 encoding of one character (`str.encode()`). -/
def utf8EncodeChar (c : Char) : List Nat :=
  let n := c.toNat
  if n < 128 then [n]
  else if n < 2048 then [192 + n / 64, 128 + n % 64]
  else if n < 65536 then [224 + n / 4096, 128 + (n / 64) % 64, 128 + n % 64]
  else [240 + n / 262144, 128 + (n / 4096) % 64, 128 + (n / 64) % 64, 128 + n % 64]

/-- UTF-8 encoding of a string (`content.encode()`). -/
def utf8Encode (s : Str) : List Nat :=
  s.flatMap utf8EncodeChar

/-- Bitwise complement on 32-bit words (arguments are kept `< 2^32`). -/
def md5Not (x : Nat) : Nat := 4294967295 - x

/-- MD5 round function F. -/
def md5F (x y z : Nat) : Nat := (x &&& y) ||| (md5Not x &&& z)

/-- MD5 round function G. -/
def md5G (x y z : Nat) : Nat := (x &&& z) ||| (y &&& md5Not z)

/-- MD5 round function H. -/
def md5H (x y z : Nat) : Nat := x ^^^ y ^^^ z

/-- MD5 round function I. -/
def md5I (x y z : Nat) : Nat := y ^^^ (x ||| md5Not z)

/-- Left rotation of a 32-bit word by `n` (for `0 < n < 32` and `x < 2^32`). -/
def rotl32 (x n : Nat) : Nat := ((x <<< n) + (x >>> (32 - n))) % 4294967296

/-- The MD5 sine-derived constant table `K[0..63]`. -/
def md5K : List Nat :=
  [ 0xd76aa478, 0xe8c7b756, 0x242070db, 0xc1bdceee,
    0xf57c0faf, 0x4787c62a, 0xa8304613, 0xfd469501,
    0x698098d8, 0x8b44f7af, 0xffff5bb1, 0x895cd7be,
    0x6b901122, 0xfd987193, 0xa679438e, 0x49b40821,
    0xf61e2562, 0xc040b340, 0x265e5a51, 0xe9b6c7aa,
    0xd62f105d, 0x02441453, 0xd8a1e681, 0xe7d3fbc8,
    0x21e1cde6, 0xc33707d6, 0xf4d50d87, 0x455a14ed,
    0xa9e3e905, 0xfcefa3f8, 0x676f02d9, 0x8d2a4c8a,
    0xfffa3942, 0x8771f681, 0x6d9d6122, 0xfde5380c,
    0xa4beea44, 0x4bdecfa9, 0xf6bb4b60, 0xbebfbc70,
    0x289b7ec6, 0xeaa127fa, 0xd4ef3085, 0x04881d05,
    0xd9d4d039, 0xe6db99e5, 0x1fa27cf8, 0xc4ac5665,
    0xf4292244, 0x432aff97, 0xab9423a7, 0xfc93a039,
    0x655b59c3, 0x8f0ccc92, 0xffeff47d, 0x85845dd1,
    0x6fa87e4f, 0xfe2ce6e0, 0xa3014314, 0x4e0811a1,
    0xf7537e82, 0xbd3af235, 0x2ad7d2bb, 0xeb86d391 ]

/-- The MD5 per-round left-rotation amounts `s[0..63]`. -/
def md5S : List Nat :=
  [ 7, 12, 17, 22, 7, 12, 17, 22, 7, 12, 17, 22, 7, 12, 17, 22,
    5, 9, 14, 20, 5, 9, 14, 20, 5, 9, 14, 20, 5, 9, 14, 20,
    4, 11, 16, 23, 4, 11, 16, 23, 4, 11, 16, 23, 4, 11, 16, 23,
    6, 10, 15, 21, 6, 10, 15, 21, 6, 10, 15, 21, 6, 10, 15, 21 ]

/-- The four 32-bit MD5 state words. -/
structure MD5State where
  a : Nat
  b : Nat
  c : Nat
  d : Nat
deriving DecidableEq

/-- The MD5 initial state. -/
def md5Init : MD5State :=
  { a := 0x67452301, b := 0xefcdab89, c := 0x98badcfe, d := 0x10325476 }

/-- One of the 64 MD5 rounds over a 16-word message block `M`. -/
def md5Step (M : List Nat) (st : MD5State) (i : Nat) : MD5State :=
  let fg : Nat × Nat :=
    if i < 16 then (md5F st.b st.c st.d, i)
    else if i < 32 then (md5G st.b st.c st.d, (5 * i + 1) % 16)
    else if i < 48 then (md5H st.b st.c st.d, (3 * i + 5) % 16)
    else (md5I st.b st.c st.d, (7 * i) % 16)
  let f := (fg.1 + st.a + md5K.getD i 0 + M.getD fg.2 0) % 4294967296
  { a := st.d
    b := (st.b + rotl32 f (md5S.getD i 0)) % 4294967296
    c := st.b
    d := st.c }

/-- Process one 16-word block and add the result into the running state. -/
def md5ProcessBlock (st : MD5State) (M : List Nat) : MD5State :=
  let r := (List.range 64).foldl (md5Step M) st
  { a := (st.a + r.a) % 4294967296
    b := (st.b + r.b) % 4294967296
    c := (st.c + r.c) % 4294967296
    d := (st.d + r.d) % 4294967296 }

/-- The `count` lowest bytes of `n`, little-endian. -/
def toLEBytes (n count : Nat) : List Nat :=
  (List.range count).map (fun i => (n >>> (8 * i)) % 256)

/-- MD5 padding: `0x80`, zeros to 56 mod 64, then the 64-bit little-endian
bit length.  The zero count is `(56 - (len+1)) mod 64`, written as
`(120 - (len+1) % 64) % 64` so the subtraction never drops below zero
(`(len+1) % 64 ≤ 64 ≤ 120`). -/
def md5Pad (msg : List Nat) : List Nat :=
  msg ++ [128] ++ List.replicate ((120 - (msg.length + 1) % 64) % 64) 0 ++
    toLEBytes (msg.length * 8 % 18446744073709551616) 8

/-- Group a list of bytes into little-endian 32-bit words. -/
def bytesToWords : List Nat → List Nat
  | b0 :: b1 :: b2 :: b3 :: rest =>
    (b0 + b1 * 256 + b2 * 65536 + b3 * 16777216) :: bytesToWords rest
  | _ => []

/-- The sixteen hex digit characters. -/
def hexDigitChars : Str := "0123456789abcdef".data

/-- Two lowercase hex characters of one byte. -/
def byteHex (b : Nat) : Str :=
  [hexDigitChars.getD (b / 16) '0', hexDigitChars.getD (b % 16) '0']

/-- The MD5 hex digest of a byte list (`hashlib.md5(...).hexdigest()`). -/
def md5HexOfBytes (msg : List Nat) : Str :=
  let padded := md5Pad msg
  let blocks := (List.range (padded.length / 64)).map
    (fun i => bytesToWords ((padded.drop (64 * i)).take 64))
  let st := blocks.foldl md5ProcessBlock md5Init
  (toLEBytes st.a 4 ++ toLEBytes st.b 4 ++ toLEBytes st.c 4 ++
    toLEBytes st.d 4).flatMap byteHex

/-- `get_content_hash` (scraper.py, lines 72-74): MD5 hex digest of the UTF-8
encoded content string.  Note that the content is hashed as-is; there is no
whitespace or case normalization. -/
def get_content_hash (content : Str) : Str :=
  md5HexOfBytes (utf8Encode content)

/-! ## Deduplication and snapshot persistence (`scripts/scraper.py`, `main`,
lines 973-996) -/

/-- A scraped post as built by the website fetchers and consumed by `main`'s
dedup loop (the checkin fetcher adds further optional enrichment fields,
which no claim touches). -/
structure ScrapedPost where
  venue_id : Option Str
  platform : Str
  content : Str
  post_url : Option Str
  scraped_at : Str
deriving DecidableEq

/-- The body of `main`'s dedup loop (scraper.py, lines 974-980) with the
`seen_hashes` set made explicit. -/
def dedupAux (seen : List Str) : List ScrapedPost → List ScrapedPost
  | [] => []
  | p :: rest =>
    let h := get_content_hash p.content
    if h ∈ seen then dedupAux seen rest
    else p :: dedupAux (h :: seen) rest

/-- Deduplicate scraped posts by content hash, keeping first occurrences
(scraper.py, lines 973-981). -/
def dedupPosts (posts : List ScrapedPost) : List ScrapedPost :=
  dedupAux [] posts

/-- The merged-output document `dynamic_updates.json`
(scraper.py, lines 986-990). -/
structure MergedOutput where
  last_run : Str
  posts : List ScrapedPost
  count : Nat
deriving DecidableEq

/-- The snapshot-persistence step of `main` (scraper.py, lines 984-996): the
output file is rewritten only when `unique_posts` is nonempty (`if
unique_posts:`); otherwise the previously persisted document is left as it
was. -/
def saveRunOutput (prev : Option MergedOutput) (unique_posts : List ScrapedPost)
    (now : Str) : Option MergedOutput :=
  if unique_posts.isEmpty then prev
  else some { last_run := now, posts := unique_posts, count := unique_posts.length }

/-- A whole run's effect on the persisted merged output: deduplicate the
concatenated fetcher results, then persist per `saveRunOutput`. -/
def runPersist (prev : Option MergedOutput) (all_posts : List ScrapedPost)
    (now : Str) : Option MergedOutput :=
  saveRunOutput prev (dedupPosts all_posts) now

/-! ## Identity resolution and auto-discovery (`data.py` lines 649-703,
`scripts/scraper.py` lines 437-492 and 565-573) -/

/-- Python substring test for a prefix position (`isPrefixB p s` is true when
`p` starts `s`). -/
def isPrefixB : Str → Str → Bool
  | [], _ => true
  | _ :: _, [] => false
  | a :: p, b :: s => a == b && isPrefixB p s

/-- Python `pat in s` on strings: substring containment. -/
def containsSub (pat : Str) : Str → Bool
  | [] => isPrefixB pat []
  | b :: s => isPrefixB pat (b :: s) || containsSub pat s

/-- Python `str.lower()` (the inputs here are ASCII). -/
def pyLower (s : Str) : Str := s.map Char.toLower

/-- Python `str.strip()`: drop leading and trailing whitespace. -/
def pyStrip (s : Str) : Str :=
  ((s.dropWhile Char.isWhitespace).reverse.dropWhile Char.isWhitespace).reverse

/-- Python `str.replace(a, b)` for single characters. -/
def replaceChar (a b : Char) (s : Str) : Str :=
  s.map (fun c => if c = a then b else c)

/-- Python `str.replace("&", "and")`. -/
def replaceAmpAnd (s : Str) : Str :=
  s.flatMap (fun c => if c = '&' then "and".data else [c])

/-- The slug `name.lower().replace(' ', '-').replace('&', 'and')` used both in
`scrape_untappd_beer_details` (scraper.py line 568) and
`add_new_sydney_venue` (scraper.py line 473). -/
def slugifyBrewery (name : Str) : Str :=
  replaceAmpAnd (replaceChar ' ' '-' (pyLower name))

/-- An apostrophe character, for venue names that contain one. -/
def apos : Char := Char.ofNat 39

/-- One record of the static venue directory.  Only the fields the verified
functions read (`id` for the existing-id sets, `name` for substring matching)
are modelled; address, location, handles and tags are never consulted by the
resolver or the auto-discovery gate. -/
structure VenueEntry where
  id : Str
  name : Str
deriving DecidableEq

/-- `SYDNEY_VENUES` (data.py lines 8-326), in source order. -/
def SYDNEY_VENUES : List VenueEntry :=
  [ ⟨"young-henrys".data, "Young Henrys".data⟩,
    ⟨"batch-brewing".data, "Batch Brewing Company".data⟩,
    ⟨"wayward-brewing".data, "Wayward Brewing Co".data⟩,
    ⟨"grifter-brewing".data, "Grifter Brewing Co".data⟩,
    ⟨"the-rocks-brewing".data, "The Rocks Brewing Co".data⟩,
    ⟨"bracket-brewing".data, "Bracket Brewing".data⟩,
    ⟨"future-brewing".data, "Future Brewing Co".data⟩,
    ⟨"range-brewing".data, "Range Brewing".data⟩,
    ⟨"mountain-culture".data, "Mountain Culture Beer Co".data⟩,
    ⟨"kicks-brewing".data, "Kicks Brewing".data⟩,
    ⟨"4-pines".data, "4 Pines Brewing".data⟩,
    ⟨"white-bay".data, "White Bay Beer Co".data⟩,
    ⟨"mountain-culture-redfern".data, "Mountain Culture Redfern".data⟩,
    ⟨"mountain-culture-emu-plains".data, "Mountain Culture Emu Plains".data⟩,
    ⟨"seeker-brewing".data, "Seeker Brewing".data⟩,
    ⟨"bay-road-brewing".data, "Bay Road Brewing".data⟩,
    ⟨"ekim-brewing".data, "Ekim Brewing".data⟩,
    ⟨"philter-brewing".data, "Philter Brewing".data⟩,
    ⟨"sauce-brewing".data, "Sauce Brewing".data⟩,
    ⟨"blood-orange-liquor".data, "Blood Orange Liquor Bar".data⟩,
    ⟨"the-tilbury".data, "The Tilbury".data⟩,
    ⟨"ddc".data, "Dulcie".data ++ apos :: "s Dove Club".data⟩,
    ⟨"basketball-liquor".data, "Basketball Liquor".data⟩,
    ⟨"tiva".data, "Tiva".data⟩,
    ⟨"hotel-sweeneys".data, "Hotel Sweeney".data ++ [apos, 's']⟩,
    ⟨"jb-and-sons".data, "JB & Sons".data⟩,
    ⟨"jb-and-sons-manly".data, "JB & Sons Manly".data⟩,
    ⟨"noble-hops".data, "Noble Hops".data⟩,
    ⟨"union-hotel".data, "The Union Hotel".data⟩,
    ⟨"bitter-phew".data, "Bitter Phew".data⟩,
    ⟨"harts-pub".data, "Harts Pub".data⟩ ]

/-- `BREWERY_NAME_TO_VENUE_ID` (data.py lines 652-683): the static alias
table mapping lower-cased Untappd brewery names to venue ids. -/
def BREWERY_NAME_TO_VENUE_ID : List (Str × Str) :=
  [ ("young henrys".data, "young-henrys".data),
    ("batch brewing company".data, "batch-brewing".data),
    ("wayward brewing".data, "wayward-brewing".data),
    ("grifter brewing".data, "grifter-brewing".data),
    ("grifter brewing co".data, "grifter-brewing".data),
    ("the rocks brewing".data, "the-rocks-brewing".data),
    ("the rocks brewing co".data, "the-rocks-brewing".data),
    ("bracket brewing".data, "bracket-brewing".data),
    ("future brewing".data, "future-brewing".data),
    ("future brewing co".data, "future-brewing".data),
    ("range brewing".data, "range-brewing".data),
    ("mountain culture beer co".data, "mountain-culture".data),
    ("mountain culture".data, "mountain-culture".data),
    ("kicks brewing".data, "kicks-brewing".data),
    ("4 pines brewing".data, "4-pines".data),
    ("4 pines brewing co".data, "4-pines".data),
    ("4 pines".data, "4-pines".data),
    ("white bay beer co".data, "white-bay".data),
    ("white bay".data, "white-bay".data),
    ("white bay brewing".data, "white-bay".data),
    ("mountain culture redfern".data, "mountain-culture-redfern".data),
    ("mountain culture emu plains".data, "mountain-culture-emu-plains".data),
    ("seeker brewing".data, "seeker-brewing".data),
    ("bay road brewing".data, "bay-road-brewing".data),
    ("bay rd brewing".data, "bay-road-brewing".data),
    ("ekim brewing".data, "ekim-brewing".data),
    ("philter brewing".data, "philter-brewing".data),
    ("sauce brewing".data, "sauce-brewing".data),
    ("sauce brewing co".data, "sauce-brewing".data) ]

/-- `map_brewery_to_venue_id` (data.py lines 685-703): exact alias lookup,
then bidirectional substring match against venue display names, then the
slug fallback. -/
def map_brewery_to_venue_id (brewery_name : Str) : Str :=
  if brewery_name = [] then "unknown".data
  else
    let brewery_lower := pyStrip (pyLower brewery_name)
    match lookupA brewery_lower BREWERY_NAME_TO_VENUE_ID with
    | some vid => vid
    | none =>
      match SYDNEY_VENUES.find? (fun v =>
        containsSub (pyLower v.name) brewery_lower ||
        containsSub brewery_lower (pyLower v.name)) with
      | some v => v.id
      | none => replaceAmpAnd (replaceChar ' ' '-' brewery_lower)

/-- Whether `map_brewery_to_venue_id` resolves the name without falling
through to the slug fallback: an exact alias hit or a substring match against
a known venue name (the first two branches of data.py lines 685-703). -/
def resolvesToKnownVenue (brewery_name : Str) : Bool :=
  brewery_name ≠ [] &&
    (let brewery_lower := pyStrip (pyLower brewery_name)
     (lookupA brewery_lower BREWERY_NAME_TO_VENUE_ID).isSome ||
       (SYDNEY_VENUES.find? (fun v =>
         containsSub (pyLower v.name) brewery_lower ||
         containsSub brewery_lower (pyLower v.name))).isSome)

/-- The regional keyword allow-list of `is_sydney_suburb`
(scraper.py lines 442-455), verbatim (including the `broookvale` typo). -/
def SYDNEY_SUBURB_KEYWORDS : List Str :=
  [ "sydney".data, "nsw".data, "new south wales".data,
    "marrickville".data, "newtown".data, "alexandria".data,
    "camperdown".data, "enmore".data,
    "surry hills".data, "crows nest".data, "rozelle".data,
    "broookvale".data, "petersham".data,
    "woolloomooloo".data, "manly".data, "balmain".data, "glebe".data,
    "redfern".data,
    "annandale".data, "leichhardt".data, "stanmore".data,
    "summer hill".data,
    "dulwich hill".data, "haberfield".data, "ashfield".data,
    "croydon".data,
    "rockdale".data, "kogarah".data, "hurstville".data,
    "sutherland".data,
    "parramatta".data, "liverpool".data, "blacktown".data,
    "penrith".data,
    "chatswood".data, "north sydney".data, "mosman".data, "bondi".data,
    "coogee".data, "maroubra".data, "randwick".data, "paddington".data,
    "darlinghurst".data, "potts point".data, "pyrmont".data,
    "ultimo".data,
    "haymarket".data, "the rocks".data, "wynyard".data,
    "circular quay".data ]

/-- `is_sydney_suburb` (scraper.py lines 437-458): any regional keyword is a
substring of the lower-cased location text; empty text is not in region. -/
def is_sydney_suburb (location_text : Str) : Bool :=
  if location_text = [] then false
  else SYDNEY_SUBURB_KEYWORDS.any
    (fun kw => containsSub kw (pyLower location_text))

/-- An auto-discovered-venue record (scraper.py lines 478-483). -/
structure AutoVenue where
  name : Str
  location : Str
  discovered_at : Str
  status : Str
deriving DecidableEq

/-- The ids of the static venue directory (the id set of SYDNEY_VENUES,
scraper.py line 567). -/
def EXISTING_VENUE_IDS : List Str := SYDNEY_VENUES.map VenueEntry.id

/-- `add_new_sydney_venue` (scraper.py lines 461-492), with the
auto-discovered-venues file made an explicit association list: already-known
slugs are left untouched, otherwise a `pending_review` record is appended. -/
def add_new_sydney_venue (auto_venues : List (Str × AutoVenue))
    (brewery_name brewery_location now : Str) : List (Str × AutoVenue) :=
  let brewery_id := slugifyBrewery brewery_name
  match lookupA brewery_id auto_venues with
  | some _ => auto_venues
  | none => auto_venues ++
      [(brewery_id,
        { name := brewery_name, location := brewery_location,
          discovered_at := now, status := "pending_review".data })]

/-- The auto-discovery gate of `scrape_untappd_beer_details`
(scraper.py lines 565-573): register the brewery only when its slug is not an
existing venue id and its location passes the region check. -/
def maybeDiscoverVenue (auto_venues : List (Str × AutoVenue))
    (brewery brewery_location now : Str) : List (Str × AutoVenue) :=
  let brewery_id := slugifyBrewery brewery
  if brewery_id ∈ EXISTING_VENUE_IDS then auto_venues
  else if is_sydney_suburb brewery_location then
    add_new_sydney_venue auto_venues brewery brewery_location now
  else auto_venues

/-! ## Website fetchers (`scripts/scraper.py`, lines 125-236)

A page environment `env : Str → Option ...` stands for the network and the
HTML parser: `env path = none` means the request (or parse) for that path
raised an exception, `some texts` gives the element texts the selector loops
would iterate, in order.  Each fetcher returns its posts together with the
trace of Metrics Ledger calls it makes. -/

/-- One recorded Metrics Ledger call, for stating the fetcher contract. -/
inductive MetricEvent where
  | attempt (source technique : Str)
  | success (source : Str) (items : Nat)
  | error (source msg : Str)
deriving DecidableEq

/-- How many `record_source_error` calls a trace contains. -/
def countErrorEvents (evs : List MetricEvent) : Nat :=
  evs.countP (fun e => match e with | .error _ _ => true | _ => false)

/-- How many `record_source_success` calls a trace contains. -/
def countSuccessEvents (evs : List MetricEvent) : Nat :=
  evs.countP (fun e => match e with | .success _ _ => true | _ => false)

/-- The item counts passed to `record_source_success` in a trace. -/
def successCounts (evs : List MetricEvent) : List Nat :=
  evs.filterMap (fun e => match e with | .success _ n => some n | _ => none)

/-- Mountain Culture fetcher constants (scraper.py lines 125-135). -/
def mcBaseUrl : Str := "https://mountainculture.com.au".data

/-- The three paths `['', '/collections/beer', '/blogs/news']`. -/
def MC_PATHS : List Str :=
  [ [], "/collections/beer".data, "/blogs/news".data ]

/-- The keyword vocabulary of the Mountain Culture fetcher
(scraper.py line 149). -/
def MC_KEYWORDS : List Str :=
  [ "new".data, "release".data, "fresh".data, "drop".data, "ipa".data,
    "ale".data, "pale".data, "stout".data, "sour".data, "lager".data ]

/-- The beer-glass prefix `"🍺 "` of the built content strings. -/
def beerEmoji : Str := "🍺 ".data

/-- The element loop of one Mountain Culture page (scraper.py lines 145-157):
keep texts holding a keyword with stripped length strictly between 10 and
200, as posts for venue `mountain-culture`. -/
def mcPostsOfPage (path now : Str) (texts : List Str) : List ScrapedPost :=
  texts.filterMap (fun raw =>
    let text := pyStrip raw
    if MC_KEYWORDS.any (fun kw => containsSub kw (pyLower text)) &&
        decide (10 < text.length) && decide (text.length < 200) then
      some { venue_id := some "mountain-culture".data
             platform := "website".data
             content := beerEmoji ++ text
             post_url := some (mcBaseUrl ++ path)
             scraped_at := now }
    else none)

/-- The Mountain Culture per-path loop (scraper.py lines 138-163): a raising
path is skipped (`except: continue`), a successful path appends its posts,
and the loop breaks as soon as the accumulated list is nonempty. -/
def mcLoop (env : Str → Option (List Str)) (now : Str) :
    List Str → List ScrapedPost → List ScrapedPost
  | [], posts => posts
  | path :: rest, posts =>
    match env path with
    | none => mcLoop env now rest posts
    | some texts =>
      let posts := posts ++ mcPostsOfPage path now texts
      if posts.isEmpty then mcLoop env now rest posts else posts

/-- `scrape_website_mountain_culture` (scraper.py lines 125-168): records one
attempt, runs the per-path loop, records one success with the count of all
collected posts, and returns the first five posts.  No code path records an
error. -/
def scrape_website_mountain_culture (env : Str → Option (List Str))
    (now : Str) : List ScrapedPost × List MetricEvent :=
  let source_name := "mountain-culture-website".data
  let posts := mcLoop env now MC_PATHS []
  (posts.take 5,
   [MetricEvent.attempt source_name "website-beautifulsoup".data,
    MetricEvent.success source_name posts.length])

/-- The path list of the generic fetcher (scraper.py lines 179-190). -/
def GEN_PATHS : List Str :=
  [ [], "new-releases".data, "new".data, "latest".data, "blog".data,
    "news".data, "beers".data, "our-beers".data, "ontap".data,
    "on-tap".data ]

/-- The keyword vocabulary of the generic fetcher (scraper.py
lines 207-209). -/
def GEN_KEYWORDS : List Str :=
  [ "new release".data, "now pouring".data, "on tap".data,
    "fresh batch".data, "just dropped".data, "new beer".data,
    "latest release".data, "just released".data, "coming soon".data,
    "available now".data, "drop".data, "fresh".data, "tapping".data,
    "tap takeover".data ]

/-- Python `url.rstrip('/')`. -/
def rstripSlash (s : Str) : Str :=
  (s.reverse.dropWhile (fun c => c = '/')).reverse

/-- The element loop of one generic page (scraper.py lines 211-225): keep
keyword-bearing texts with stripped length strictly between 15 and 300 whose
first 280 characters differ from every post collected so far. -/
def genPostsOfPage (venue_id full_url now : Str) (texts : List Str)
    (posts0 : List ScrapedPost) : List ScrapedPost :=
  texts.foldl (fun acc raw =>
    let text := pyStrip raw
    if GEN_KEYWORDS.any (fun kw => containsSub kw (pyLower text)) &&
        decide (15 < text.length) && decide (text.length < 300) &&
        !(acc.any (fun p => decide (p.content = text.take 280))) then
      acc ++
        [{ venue_id := some venue_id
           platform := "website".data
           content := text.take 280
           post_url := some full_url
           scraped_at := now }]
    else acc) posts0

/-- The generic per-path loop (scraper.py lines 196-231): a raising path or a
non-200 status is skipped, a parsed page appends its posts, and the loop
breaks as soon as the accumulated list is nonempty.  `env path` gives the
HTTP status and element texts, or `none` when the request raised. -/
def genLoop (env : Str → Option (Nat × List Str)) (venue_id url now : Str) :
    List Str → List ScrapedPost → List ScrapedPost
  | [], posts => posts
  | path :: rest, posts =>
    match env path with
    | none => genLoop env venue_id url now rest posts
    | some pg =>
      if pg.1 ≠ 200 then genLoop env venue_id url now rest posts
      else
        let full_url :=
          if path = ([] : Str) then url else rstripSlash url ++ '/' :: path
        let posts := genPostsOfPage venue_id full_url now pg.2 posts
        if posts.isEmpty then genLoop env venue_id url now rest posts
        else posts

/-- `scrape_generic_website` (scraper.py lines 170-236): records one attempt
for the source named venue_id plus "-website", runs the per-path loop,
records one success with
the count of all collected posts, and returns the first five posts.  No code
path records an error. -/
def scrape_generic_website (env : Str → Option (Nat × List Str))
    (venue_id url now : Str) : List ScrapedPost × List MetricEvent :=
  let source_name := venue_id ++ "-website".data
  let posts := genLoop env venue_id url now GEN_PATHS []
  (posts.take 5,
   [MetricEvent.attempt source_name "website-generic".data,
    MetricEvent.success source_name posts.length])

/-! ## Auxiliary definitions used only in statements -/

/-- The sources map of the currently open run (empty when no run is open). -/
def currentRunSources (m : ScraperMetrics) : List (Str × RunSource) :=
  match m.current_run with
  | some cr => cr.sources
  | none => []

/-- Every source the open run tracks is present in the lifetime ledger.  This
holds in every reachable `ScraperMetrics` state. -/
def runTracked (m : ScraperMetrics) : Prop :=
  ∀ s, (lookupA s (currentRunSources m)).isSome = true →
    (lookupA s m.sources).isSome = true

/-- Modelled from the spec for comparison only (the source has no such
normalization): the "whitespace-collapsed, case-preserved" content body the
spec says `contentHash` is computed from — whitespace runs collapsed to a
single space, leading and trailing whitespace dropped. -/
def specWordsOf (s : Str) (cur : Str) : List Str :=
  match s with
  | [] => if cur = [] then [] else [cur.reverse]
  | c :: rest =>
    if c.isWhitespace then
      if cur = [] then specWordsOf rest []
      else cur.reverse :: specWordsOf rest []
    else specWordsOf rest (c :: cur)

/-- Modelled from the spec for comparison only: join words with single
spaces. -/
def specJoinWords : List Str → Str
  | [] => []
  | [w] => w
  | w :: ws => w ++ ' ' :: specJoinWords ws

/-- Modelled from the spec for comparison only: the normalized content body
(`" ".join(s.split())`). -/
def specNormalizeContent (s : Str) : Str :=
  specJoinWords (specWordsOf s [])

/-- A concrete scraped post with the given content and scrape time, used in
closed statements at explicit inputs. -/
def samplePost (content scraped_at : Str) : ScrapedPost :=
  { venue_id := none, platform := "website".data, content := content,
    post_url := none, scraped_at := scraped_at }

/-! ## Association-list lemmas -/

theorem lookupA_append_of_none {α : Type} {k : Str} {l₁ : List (Str × α)}
    (l₂ : List (Str × α)) (h : lookupA k l₁ = none) :
    lookupA k (l₁ ++ l₂) = lookupA k l₂ := by
  induction l₁ with
  | nil => rfl
  | cons p rest ih =>
    simp only [lookupA] at h
    by_cases hk : k = p.1
    · simp [hk] at h
    · rw [if_neg hk] at h
      rw [List.cons_append]
      simp only [lookupA]
      rw [if_neg hk]
      exact ih h

theorem lookupA_append_of_some {α : Type} {k : Str} {l₁ : List (Str × α)}
    {v : α} (l₂ : List (Str × α)) (h : lookupA k l₁ = some v) :
    lookupA k (l₁ ++ l₂) = some v := by
  induction l₁ with
  | nil => simp [lookupA] at h
  | cons p rest ih =>
    simp only [lookupA] at h
    rw [List.cons_append]
    simp only [lookupA]
    by_cases hk : k = p.1
    · rw [if_pos hk] at h ⊢
      exact h
    · rw [if_neg hk] at h ⊢
      exact ih h

theorem lookupA_updateA_self {α : Type} (k : Str) (f : α → α)
    (l : List (Str × α)) :
    lookupA k (updateA k f l) = Option.map f (lookupA k l) := by
  induction l with
  | nil => rfl
  | cons p rest ih =>
    simp only [updateA, lookupA]
    by_cases hk : k = p.1
    · rw [if_pos hk]
      simp only [lookupA]
      rw [if_pos hk, if_pos hk]
      rfl
    · rw [if_neg hk]
      simp only [lookupA]
      rw [if_neg hk, if_neg hk]
      exact ih

theorem lookupA_updateA_of_ne {α : Type} {k k' : Str} (f : α → α)
    (l : List (Str × α)) (h : k ≠ k') :
    lookupA k (updateA k' f l) = lookupA k l := by
  induction l with
  | nil => rfl
  | cons p rest ih =>
    simp only [updateA, lookupA]
    by_cases hk' : k' = p.1
    · rw [if_pos hk']
      simp only [lookupA]
      rw [if_neg (hk' ▸ h), if_neg (hk' ▸ h)]
    · rw [if_neg hk']
      simp only [lookupA]
      by_cases hk : k = p.1
      · rw [if_pos hk, if_pos hk]
      · rw [if_neg hk, if_neg hk]
        exact ih

theorem lookupA_updateA_isSome {α : Type} (k k' : Str) (f : α → α)
    (l : List (Str × α)) :
    (lookupA k (updateA k' f l)).isSome = (lookupA k l).isSome := by
  by_cases h : k = k'
  · subst h
    rw [lookupA_updateA_self]
    cases lookupA k l <;> rfl
  · rw [lookupA_updateA_of_ne f l h]

theorem lookupA_append_isSome_mono {α : Type} {k : Str} {l₁ : List (Str × α)}
    (l₂ : List (Str × α)) (h : (lookupA k l₁).isSome = true) :
    (lookupA k (l₁ ++ l₂)).isSome = true := by
  cases hv : lookupA k l₁ with
  | none => rw [hv] at h; simp at h
  | some v => rw [lookupA_append_of_some l₂ hv]; rfl

theorem lookupA_singleton_eq {α : Type} {s s' : Str} {v : α}
    (h : (lookupA s [(s', v)]).isSome = true) : s = s' := by
  by_cases hk : s = s'
  · exact hk
  · simp [lookupA, hk] at h

theorem lookupA_append_self_isSome {α : Type} (l : List (Str × α)) (s : Str)
    (v : α) : (lookupA s (l ++ [(s, v)])).isSome = true := by
  cases hv : lookupA s l with
  | some w => rw [lookupA_append_of_some _ hv]; rfl
  | none => rw [lookupA_append_of_none _ hv]; simp [lookupA]

/-! ## Reachable-state invariant: the open run only tracks known sources -/

theorem runTracked_attempt (m : ScraperMetrics) (now s' t : Str)
    (h : runTracked m) : runTracked (record_source_attempt now s' t m) := by
  intro s hs
  simp only [record_source_attempt, currentRunSources] at hs ⊢
  cases hcr : m.current_run with
  | none =>
    simp only [hcr] at hs
    simp [lookupA] at hs
  | some cr =>
    simp only [hcr] at hs
    have hgoal : ∀ hm : (lookupA s m.sources).isSome = true,
        (lookupA s (updateA s'
          (fun sm => { sm with attempts := sm.attempts + 1, last_attempt := some now })
          (match lookupA s' m.sources with
           | none => m.sources ++
               [(s', { technique := t, attempts := 0, successes := 0,
                       items_found := 0, errors := [], first_seen := now,
                       last_attempt := none })]
           | some _ => m.sources))).isSome = true := by
      intro hm
      cases hl : lookupA s' m.sources with
      | some sm =>
        simp only [hl, lookupA_updateA_isSome]
        exact hm
      | none =>
        simp only [hl, lookupA_updateA_isSome]
        exact lookupA_append_isSome_mono _ hm
    cases hcs : lookupA s' cr.sources with
    | some rs =>
      simp only [hcs] at hs
      exact hgoal (h s (by simp only [currentRunSources, hcr]; exact hs))
    | none =>
      simp only [hcs] at hs
      cases hss : lookupA s cr.sources with
      | some rs2 =>
        exact hgoal (h s (by simp only [currentRunSources, hcr, hss]; rfl))
      | none =>
        have hseq : s = s' := by
          rw [lookupA_append_of_none _ hss] at hs
          exact lookupA_singleton_eq hs
        subst hseq
        cases hl : lookupA s m.sources with
        | some sm =>
          simp only [hl, lookupA_updateA_isSome, hl]
          rfl
        | none =>
          simp only [hl, lookupA_updateA_isSome]
          exact lookupA_append_self_isSome _ _ _

theorem runTracked_success (m : ScraperMetrics) (s' : Str) (i : Nat)
    (h : runTracked m) : runTracked (record_source_success s' i m) := by
  intro s hs
  simp only [record_source_success, currentRunSources] at hs ⊢
  cases hcr : m.current_run with
  | none =>
    simp only [hcr] at hs
    simp [lookupA] at hs
  | some cr =>
    simp only [hcr] at hs
    have hm : (lookupA s cr.sources).isSome = true := by
      cases hcs : lookupA s' cr.sources with
      | some rs =>
        simp only [hcs] at hs
        rwa [lookupA_updateA_isSome] at hs
      | none =>
        simp only [hcs] at hs
        exact hs
    have hsom := h s (by simp only [currentRunSources, hcr]; exact hm)
    cases hl : lookupA s' m.sources with
    | some sm =>
      simp only [hl, lookupA_updateA_isSome]
      exact hsom
    | none =>
      simp only [hl]
      exact hsom

theorem runTracked_error (m : ScraperMetrics) (now s' msg : Str)
    (h : runTracked m) : runTracked (record_source_error now s' msg m) := by
  intro s hs
  simp only [record_source_error, currentRunSources] at hs ⊢
  cases hcr : m.current_run with
  | none =>
    simp only [hcr] at hs
    simp [lookupA] at hs
  | some cr =>
    simp only [hcr] at hs
    have hm : (lookupA s cr.sources).isSome = true := by
      cases hcs : lookupA s' cr.sources with
      | some rs =>
        simp only [hcs] at hs
        rwa [lookupA_updateA_isSome] at hs
      | none =>
        simp only [hcs] at hs
        exact hs
    have hsom := h s (by simp only [currentRunSources, hcr]; exact hm)
    cases hl : lookupA s' m.sources with
    | some sm =>
      simp only [hl, lookupA_updateA_isSome]
      exact hsom
    | none =>
      simp only [hl]
      exact hsom

theorem runTracked_runStart (m : ScraperMetrics) (now : Str) :
    runTracked (record_run_start now m) := by
  intro s hs
  simp [record_run_start, currentRunSources, lookupA] at hs

theorem runTracked_runEnd (m : ScraperMetrics) (now : Str) (total : Nat)
    (h : runTracked m) : runTracked (record_run_end now total m) := by
  intro s hs
  simp only [record_run_end, currentRunSources] at hs ⊢
  cases hcr : m.current_run with
  | none =>
    simp only [hcr] at hs ⊢
    exact h s (by simp only [currentRunSources, hcr]; exact hs)
  | some cr =>
    simp only [hcr] at hs
    simp [lookupA] at hs

theorem runTracked_applyOp (m : ScraperMetrics) (op : MetricsOp)
    (h : runTracked m) : runTracked (applyOp m op) := by
  cases op with
  | runStart now => exact runTracked_runStart m now
  | attempt now s t => exact runTracked_attempt m now s t h
  | success s i => exact runTracked_success m s i h
  | error now s msg => exact runTracked_error m now s msg h
  | runEnd now tot => exact runTracked_runEnd m now tot h

theorem runTracked_applyOps (m : ScraperMetrics) (ops : List MetricsOp)
    (h : runTracked m) : runTracked (applyOps m ops) := by
  induction ops generalizing m with
  | nil => exact h
  | cons op rest ih => exact ih (applyOp m op) (runTracked_applyOp m op h)

theorem runTracked_fresh (created : Str) : runTracked (freshMetrics created) := by
  intro s hs
  simp [currentRunSources, freshMetrics, lookupA] at hs

theorem record_error_noop_of_tracked (M : ScraperMetrics) (now src msg : Str)
    (htr : runTracked M) (h : lookupA src M.sources = none) :
    record_source_error now src msg M = M := by
  obtain ⟨Ms, Mruns, Mc, Mcur⟩ := M
  simp only at h
  simp only [record_source_error, h]
  cases Mcur with
  | none => rfl
  | some cr =>
    cases hcs : lookupA src cr.sources with
    | none => simp [hcs]
    | some rs =>
      exfalso
      have hx := htr src (by simp [currentRunSources, hcs])
      simp only at hx
      rw [h] at hx
      simp at hx

set_option maxRecDepth 100000

/-- C10: for a source name absent from the metrics ledger's sources map
(never attempted — the state is any state reachable from the fresh ledger by
recorded calls), `record_source_error` is a complete no-op: the whole
ScraperMetrics state, current run record included, is unchanged, so the error
message is silently dropped. -/
theorem record_error_unknown_source_noop (created now src msg : Str)
    (ops : List MetricsOp)
    (h : lookupA src (applyOps (freshMetrics created) ops).sources = none) :
    record_source_error now src msg (applyOps (freshMetrics created) ops) =
      applyOps (freshMetrics created) ops :=
  record_error_noop_of_tracked _ now src msg
    (runTracked_applyOps _ ops (runTracked_fresh created)) h

/-- C10 witness: after a run start and an attempt for source `a`, recording an
error for the never-attempted source `b` leaves the state unchanged. -/
theorem record_error_unknown_source_noop_witness :
    lookupA "b".data (applyOps (freshMetrics "c".data)
      [MetricsOp.runStart "t0".data,
       MetricsOp.attempt "t1".data "a".data "w".data]).sources = none ∧
    record_source_error "t2".data "b".data "boom".data
      (applyOps (freshMetrics "c".data)
        [MetricsOp.runStart "t0".data,
         MetricsOp.attempt "t1".data "a".data "w".data]) =
      applyOps (freshMetrics "c".data)
        [MetricsOp.runStart "t0".data,
         MetricsOp.attempt "t1".data "a".data "w".data] :=
  ⟨by decide,
   record_error_unknown_source_noop "c".data "t2".data "b".data "boom".data
     [MetricsOp.runStart "t0".data,
      MetricsOp.attempt "t1".data "a".data "w".data] (by decide)⟩

/-- C1: for an identity key K absent from the History Ledger and observation
times t1 < t2 < t3, classifying K at t1, then t2, then t3 returns
firstSeenAt = t1 from all three calls, the ledger afterwards stores t1 for K,
and a stored firstSeenAt is never overwritten by a later observation. -/
theorem classify_firstSeen_idempotent (hist : List (Str × Nat)) (K : Str)
    (t1 t2 t3 : Nat) (habs : lookupA K hist = none)
    (h12 : t1 < t2) (h23 : t2 < t3) :
    ((classifyBeer hist K t1).1 = t1 ∧
     (classifyBeer (classifyBeer hist K t1).2 K t2).1 = t1 ∧
     (classifyBeer (classifyBeer (classifyBeer hist K t1).2 K t2).2 K t3).1 = t1 ∧
     lookupA K (classifyBeer (classifyBeer (classifyBeer hist K t1).2 K t2).2 K t3).2 =
       some t1) ∧
    (∀ h' t fs, lookupA K h' = some fs → classifyBeer h' K t = (fs, h')) := by
  have himm : ∀ (h' : List (Str × Nat)) (t fs : Nat),
      lookupA K h' = some fs → classifyBeer h' K t = (fs, h') := by
    intro h' t fs hf
    simp [classifyBeer, hf]
  have h1 : classifyBeer hist K t1 = (t1, hist ++ [(K, t1)]) := by
    simp [classifyBeer, habs]
  have hl : lookupA K (hist ++ [(K, t1)]) = some t1 := by
    rw [lookupA_append_of_none _ habs]
    simp [lookupA]
  have h2 := himm (hist ++ [(K, t1)]) t2 t1 hl
  have h3 := himm (hist ++ [(K, t1)]) t3 t1 hl
  refine ⟨⟨?_, ?_, ?_, ?_⟩, himm⟩ <;> simp [h1, h2, h3, hl]

/-- C1 witness: the empty history with key `k` observed at times 1, 2, 3. -/
theorem classify_firstSeen_idempotent_witness :
    lookupA "k".data ([] : List (Str × Nat)) = none ∧ 1 < 2 ∧ 2 < 3 ∧
    (((classifyBeer [] "k".data 1).1 = 1 ∧
      (classifyBeer (classifyBeer [] "k".data 1).2 "k".data 2).1 = 1 ∧
      (classifyBeer (classifyBeer (classifyBeer [] "k".data 1).2 "k".data 2).2
        "k".data 3).1 = 1 ∧
      lookupA "k".data (classifyBeer (classifyBeer
        (classifyBeer [] "k".data 1).2 "k".data 2).2 "k".data 3).2 = some 1) ∧
     (∀ h' t fs, lookupA "k".data h' = some fs →
        classifyBeer h' "k".data t = (fs, h'))) :=
  ⟨rfl, by decide, by decide,
   classify_firstSeen_idempotent [] "k".data 1 2 3 rfl (by decide) (by decide)⟩

/-- C9 counterexample: a beer first seen 7 days and 1 hour ago (608400 s) is
still classified new by the code, although `now − firstSeenAt ≤ 7 days`
(604800 s) is false — the window is computed on floored whole days, not on
the exact duration. -/
theorem freshness_window_boundary_cex :
    isNewBeer 608400 0 = true ∧ ¬(608400 - 0 ≤ 7 * 86400) := by decide

/-- C9 amended: for firstSeenAt ≤ now, the classifier reports new exactly
when strictly less than 8 whole days (691200 s) have elapsed, i.e. when the
floored day count is at most 7. -/
theorem freshness_window_floor_days (now first_seen : Nat)
    (h : first_seen ≤ now) :
    isNewBeer now first_seen = true ↔ now - first_seen < 691200 := by
  simp only [isNewBeer, daysSinceFirstSeen, decide_eq_true_eq]
  omega

/-- C9 witness: 604801 seconds (7 days + 1 s) after first sight is still
new. -/
theorem freshness_window_floor_days_witness :
    (0 : Nat) ≤ 604801 ∧
    (isNewBeer 604801 0 = true ↔ 604801 - 0 < 691200) :=
  ⟨by decide, freshness_window_floor_days 604801 0 (by decide)⟩

theorem lookupA_append_singleton_ne {α : Type} {s s' : Str} (l : List (Str × α))
    (v : α) (h : s ≠ s') : lookupA s (l ++ [(s', v)]) = lookupA s l := by
  cases hv : lookupA s l with
  | some w => exact lookupA_append_of_some _ hv
  | none => rw [lookupA_append_of_none _ hv]; simp [lookupA, h]

theorem attemptsOf_attempt (m : ScraperMetrics) (now s' t s : Str) :
    attemptsOf s (record_source_attempt now s' t m) =
      attemptsOf s m + (if s' = s then 1 else 0) := by
  simp only [record_source_attempt, attemptsOf]
  by_cases hk : s' = s
  · subst hk
    rw [if_pos rfl]
    cases hl : lookupA s' m.sources with
    | some sm =>
      simp only [hl, lookupA_updateA_self, hl]
      rfl
    | none =>
      simp only [hl, lookupA_updateA_self,
        lookupA_append_of_none _ hl]
      simp [lookupA]
  · rw [if_neg hk]
    have hks : s ≠ s' := fun he => hk he.symm
    cases hl : lookupA s' m.sources with
    | some sm =>
      simp only [hl, lookupA_updateA_of_ne _ _ hks]
      omega
    | none =>
      simp only [hl, lookupA_updateA_of_ne _ _ hks,
        lookupA_append_singleton_ne _ _ hks]
      omega

theorem successesOf_attempt (m : ScraperMetrics) (now s' t s : Str) :
    successesOf s (record_source_attempt now s' t m) = successesOf s m := by
  simp only [record_source_attempt, successesOf]
  by_cases hk : s = s'
  · subst hk
    cases hl : lookupA s m.sources with
    | some sm =>
      simp only [hl, lookupA_updateA_self, hl]
      rfl
    | none =>
      simp only [hl, lookupA_updateA_self, lookupA_append_of_none _ hl, hl]
      simp [lookupA]
  · cases hl : lookupA s' m.sources with
    | some sm =>
      simp only [hl, lookupA_updateA_of_ne _ _ hk]
    | none =>
      simp only [hl, lookupA_updateA_of_ne _ _ hk,
        lookupA_append_singleton_ne _ _ hk]

theorem attemptsOf_success (m : ScraperMetrics) (s' : Str) (i : Nat) (s : Str) :
    attemptsOf s (record_source_success s' i m) = attemptsOf s m := by
  simp only [record_source_success, attemptsOf]
  by_cases hk : s = s'
  · subst hk
    cases hl : lookupA s m.sources with
    | some sm =>
      simp only [hl, lookupA_updateA_self, hl]
      rfl
    | none =>
      simp only [hl]
  · cases hl : lookupA s' m.sources with
    | some sm =>
      simp only [hl, lookupA_updateA_of_ne _ _ hk]
    | none =>
      simp only [hl]

theorem successesOf_success_le (m : ScraperMetrics) (s' : Str) (i : Nat)
    (s : Str) :
    successesOf s (record_source_success s' i m) ≤
      successesOf s m + (if s' = s then 1 else 0) := by
  simp only [record_source_success, successesOf]
  by_cases hk : s = s'
  · subst hk
    rw [if_pos rfl]
    cases hl : lookupA s m.sources with
    | some sm =>
      simp only [hl, lookupA_updateA_self, hl]
      simp
    | none =>
      simp only [hl]
      omega
  · rw [if_neg (fun he => hk he.symm)]
    cases hl : lookupA s' m.sources with
    | some sm =>
      simp only [hl, lookupA_updateA_of_ne _ _ hk]
      omega
    | none =>
      simp only [hl]
      omega

theorem successesOf_success_ge (m : ScraperMetrics) (s' : Str) (i : Nat)
    (s : Str) :
    successesOf s m ≤ successesOf s (record_source_success s' i m) := by
  simp only [record_source_success, successesOf]
  by_cases hk : s = s'
  · subst hk
    cases hl : lookupA s m.sources with
    | some sm =>
      simp only [hl, lookupA_updateA_self, hl]
      simp
    | none =>
      simp only [hl]
      omega
  · cases hl : lookupA s' m.sources with
    | some sm =>
      simp only [hl, lookupA_updateA_of_ne _ _ hk]
      omega
    | none =>
      simp only [hl]
      omega

theorem attemptsOf_error (m : ScraperMetrics) (now s' msg s : Str) :
    attemptsOf s (record_source_error now s' msg m) = attemptsOf s m := by
  simp only [record_source_error, attemptsOf]
  by_cases hk : s = s'
  · subst hk
    cases hl : lookupA s m.sources with
    | some sm =>
      simp only [hl, lookupA_updateA_self, hl]
      rfl
    | none =>
      simp only [hl]
  · cases hl : lookupA s' m.sources with
    | some sm =>
      simp only [hl, lookupA_updateA_of_ne _ _ hk]
    | none =>
      simp only [hl]

theorem successesOf_error (m : ScraperMetrics) (now s' msg s : Str) :
    successesOf s (record_source_error now s' msg m) = successesOf s m := by
  simp only [record_source_error, successesOf]
  by_cases hk : s = s'
  · subst hk
    cases hl : lookupA s m.sources with
    | some sm =>
      simp only [hl, lookupA_updateA_self, hl]
      rfl
    | none =>
      simp only [hl]
  · cases hl : lookupA s' m.sources with
    | some sm =>
      simp only [hl, lookupA_updateA_of_ne _ _ hk]
    | none =>
      simp only [hl]

theorem attemptsOf_runStart (m : ScraperMetrics) (now s : Str) :
    attemptsOf s (record_run_start now m) = attemptsOf s m := rfl

theorem successesOf_runStart (m : ScraperMetrics) (now s : Str) :
    successesOf s (record_run_start now m) = successesOf s m := rfl

theorem attemptsOf_runEnd (m : ScraperMetrics) (now : Str) (tot : Nat)
    (s : Str) : attemptsOf s (record_run_end now tot m) = attemptsOf s m := by
  simp only [record_run_end]
  cases hcr : m.current_run <;> rfl

theorem successesOf_runEnd (m : ScraperMetrics) (now : Str) (tot : Nat)
    (s : Str) : successesOf s (record_run_end now tot m) = successesOf s m := by
  simp only [record_run_end]
  cases hcr : m.current_run <;> rfl

theorem attemptsOf_applyOp (m : ScraperMetrics) (op : MetricsOp) (s : Str) :
    attemptsOf s (applyOp m op) =
      attemptsOf s m + (if opIsAttemptFor s op then 1 else 0) := by
  cases op with
  | runStart now => simp [applyOp, attemptsOf_runStart, opIsAttemptFor]
  | attempt now s' t =>
    simp only [applyOp, opIsAttemptFor, attemptsOf_attempt]
    by_cases hk : s' = s <;> simp [hk]
  | success s' i => simp [applyOp, attemptsOf_success, opIsAttemptFor]
  | error now s' msg => simp [applyOp, attemptsOf_error, opIsAttemptFor]
  | runEnd now tot => simp [applyOp, attemptsOf_runEnd, opIsAttemptFor]

theorem successesOf_applyOp_le (m : ScraperMetrics) (op : MetricsOp) (s : Str) :
    successesOf s (applyOp m op) ≤
      successesOf s m + (if opIsSuccessFor s op then 1 else 0) := by
  cases op with
  | runStart now => simp [applyOp, successesOf_runStart, opIsSuccessFor]
  | attempt now s' t => simp [applyOp, successesOf_attempt, opIsSuccessFor]
  | success s' i =>
    have := successesOf_success_le m s' i s
    simp only [applyOp, opIsSuccessFor]
    by_cases hk : s' = s
    · simpa [hk] using this
    · simpa [hk] using this
  | error now s' msg => simp [applyOp, successesOf_error, opIsSuccessFor]
  | runEnd now tot => simp [applyOp, successesOf_runEnd, opIsSuccessFor]

theorem counters_applyOp_mono (m : ScraperMetrics) (op : MetricsOp) (s : Str) :
    attemptsOf s m ≤ attemptsOf s (applyOp m op) ∧
      successesOf s m ≤ successesOf s (applyOp m op) := by
  constructor
  · rw [attemptsOf_applyOp]
    omega
  · cases op with
    | runStart now => simp [applyOp, successesOf_runStart]
    | attempt now s' t => simp [applyOp, successesOf_attempt]
    | success s' i => exact successesOf_success_ge m s' i s
    | error now s' msg => simp [applyOp, successesOf_error]
    | runEnd now tot => simp [applyOp, successesOf_runEnd]

theorem attemptsOf_applyOps (m : ScraperMetrics) (ops : List MetricsOp)
    (s : Str) :
    attemptsOf s (applyOps m ops) = attemptsOf s m + attemptCalls s ops := by
  induction ops generalizing m with
  | nil => simp [applyOps, attemptCalls, List.countP_nil]
  | cons op rest ih =>
    have hstep := attemptsOf_applyOp m op s
    have := ih (applyOp m op)
    simp only [applyOps, List.foldl_cons] at this ⊢
    rw [this, hstep]
    simp only [attemptCalls, List.countP_cons]
    omega

theorem successesOf_applyOps_le (m : ScraperMetrics) (ops : List MetricsOp)
    (s : Str) :
    successesOf s (applyOps m ops) ≤ successesOf s m + successCalls s ops := by
  induction ops generalizing m with
  | nil => simp [applyOps, successCalls, List.countP_nil]
  | cons op rest ih =>
    have hstep := successesOf_applyOp_le m op s
    have := ih (applyOp m op)
    simp only [applyOps, List.foldl_cons] at this ⊢
    simp only [successCalls, List.countP_cons] at this ⊢
    omega

theorem counters_applyOps_mono (m : ScraperMetrics) (ops : List MetricsOp)
    (s : Str) :
    attemptsOf s m ≤ attemptsOf s (applyOps m ops) ∧
      successesOf s m ≤ successesOf s (applyOps m ops) := by
  induction ops generalizing m with
  | nil => exact ⟨Nat.le_refl _, Nat.le_refl _⟩
  | cons op rest ih =>
    have h1 := counters_applyOp_mono m op s
    have h2 := ih (applyOp m op)
    simp only [applyOps, List.foldl_cons] at h2 ⊢
    exact ⟨Nat.le_trans h1.1 h2.1, Nat.le_trans h1.2 h2.2⟩

/-- C2 counterexample: a sequence of one `record_source_attempt` followed by
two `record_source_success` calls for the same source leaves the ledger with
successes = 2 > attempts = 1, so `successes ≤ attempts` does not hold for
every sequence of recordAttempt/recordSuccess calls. -/
theorem metrics_double_success_cex :
    successesOf "s".data (applyOps (freshMetrics "c".data)
      [MetricsOp.attempt "t1".data "s".data "w".data,
       MetricsOp.success "s".data 1,
       MetricsOp.success "s".data 1]) = 2 ∧
    attemptsOf "s".data (applyOps (freshMetrics "c".data)
      [MetricsOp.attempt "t1".data "s".data "w".data,
       MetricsOp.success "s".data 1,
       MetricsOp.success "s".data 1]) = 1 ∧
    ¬(successesOf "s".data (applyOps (freshMetrics "c".data)
      [MetricsOp.attempt "t1".data "s".data "w".data,
       MetricsOp.success "s".data 1,
       MetricsOp.success "s".data 1]) ≤
      attemptsOf "s".data (applyOps (freshMetrics "c".data)
      [MetricsOp.attempt "t1".data "s".data "w".data,
       MetricsOp.success "s".data 1,
       MetricsOp.success "s".data 1])) := by decide

/-- C2 amended: starting from an empty metrics ledger, each source's attempts
and successes counters are non-decreasing along every sequence of recorded
calls, and `successes ≤ attempts` holds after every call provided every
prefix of the sequence makes at most as many recordSuccess calls as
recordAttempt calls for each source (as `main`'s fetchers do: one success per
attempt).  Without that proviso a repeated recordSuccess pushes successes
above attempts. -/
theorem metrics_monotone_and_bounded (created : Str) (ops : List MetricsOp)
    (h : ∀ n s, successCalls s (ops.take n) ≤ attemptCalls s (ops.take n)) :
    (∀ n₁ n₂ s, n₁ ≤ n₂ →
      attemptsOf s (applyOps (freshMetrics created) (ops.take n₁)) ≤
        attemptsOf s (applyOps (freshMetrics created) (ops.take n₂)) ∧
      successesOf s (applyOps (freshMetrics created) (ops.take n₁)) ≤
        successesOf s (applyOps (freshMetrics created) (ops.take n₂))) ∧
    (∀ n s, successesOf s (applyOps (freshMetrics created) (ops.take n)) ≤
      attemptsOf s (applyOps (freshMetrics created) (ops.take n))) := by
  constructor
  · intro n₁ n₂ s h12
    have hdecomp : ops.take n₂ = ops.take n₁ ++ (ops.take n₂).drop n₁ := by
      conv_lhs => rw [← List.take_append_drop n₁ (ops.take n₂)]
      rw [List.take_take, Nat.min_eq_left h12]
    rw [hdecomp]
    have : applyOps (freshMetrics created) (ops.take n₁ ++ (ops.take n₂).drop n₁) =
        applyOps (applyOps (freshMetrics created) (ops.take n₁)) ((ops.take n₂).drop n₁) := by
      simp [applyOps, List.foldl_append]
    rw [this]
    exact counters_applyOps_mono _ _ s
  · intro n s
    have hfa : attemptsOf s (freshMetrics created) = 0 := rfl
    have hfs : successesOf s (freshMetrics created) = 0 := rfl
    have e1 := attemptsOf_applyOps (freshMetrics created) (ops.take n) s
    have e2 := successesOf_applyOps_le (freshMetrics created) (ops.take n) s
    have e3 := h n s
    omega

/-- C2 witness: the two-call sequence attempt-then-success satisfies the
balanced-prefix proviso, and the monotonicity and bound follow. -/
theorem metrics_monotone_and_bounded_witness :
    (∀ n s, successCalls s ([MetricsOp.attempt "t1".data "s".data "w".data,
        MetricsOp.success "s".data 1].take n) ≤
      attemptCalls s ([MetricsOp.attempt "t1".data "s".data "w".data,
        MetricsOp.success "s".data 1].take n)) ∧
    ((∀ n₁ n₂ s, n₁ ≤ n₂ →
      attemptsOf s (applyOps (freshMetrics "c".data)
        ([MetricsOp.attempt "t1".data "s".data "w".data,
          MetricsOp.success "s".data 1].take n₁)) ≤
        attemptsOf s (applyOps (freshMetrics "c".data)
          ([MetricsOp.attempt "t1".data "s".data "w".data,
            MetricsOp.success "s".data 1].take n₂)) ∧
      successesOf s (applyOps (freshMetrics "c".data)
        ([MetricsOp.attempt "t1".data "s".data "w".data,
          MetricsOp.success "s".data 1].take n₁)) ≤
        successesOf s (applyOps (freshMetrics "c".data)
          ([MetricsOp.attempt "t1".data "s".data "w".data,
            MetricsOp.success "s".data 1].take n₂))) ∧
     (∀ n s, successesOf s (applyOps (freshMetrics "c".data)
        ([MetricsOp.attempt "t1".data "s".data "w".data,
          MetricsOp.success "s".data 1].take n)) ≤
       attemptsOf s (applyOps (freshMetrics "c".data)
        ([MetricsOp.attempt "t1".data "s".data "w".data,
          MetricsOp.success "s".data 1].take n)))) := by
  have hb : ∀ n s, successCalls s ([MetricsOp.attempt "t1".data "s".data "w".data,
      MetricsOp.success "s".data 1].take n) ≤
      attemptCalls s ([MetricsOp.attempt "t1".data "s".data "w".data,
        MetricsOp.success "s".data 1].take n) := by
    intro n s
    match n with
    | 0 =>
      simp [successCalls, attemptCalls, List.countP_nil]
    | 1 =>
      simp [successCalls, attemptCalls, List.countP_cons, List.countP_nil,
        opIsSuccessFor, opIsAttemptFor]
    | (k + 2) =>
      simp only [List.take_succ_cons, List.take_nil, successCalls,
        attemptCalls, List.countP_cons, List.countP_nil, opIsSuccessFor,
        opIsAttemptFor]
      by_cases hk : "s".data = s <;> simp [hk]
  exact ⟨hb, metrics_monotone_and_bounded "c".data _ hb⟩

theorem c5_state_eval :
    applyOps (freshMetrics "c".data)
      [MetricsOp.runStart "t0".data,
       MetricsOp.attempt "t1".data "src".data "tech".data,
       MetricsOp.success "src".data 1,
       MetricsOp.runEnd "t2".data 1] =
    { sources := [("src".data,
        { technique := "tech".data, attempts := 1, successes := 1,
          items_found := 1, errors := [], first_seen := "t1".data,
          last_attempt := some "t1".data })],
      runs := [{ started_at := "t0".data,
                 sources := [("src".data,
                   { success := true, items := 1, error := none })],
                 ended_at := "t2".data, total_items := 1 }],
      created_at := "c".data,
      current_run := none } := by decide

theorem c5_entry_eval :
    lookupA "src".data (get_summary (applyOps (freshMetrics "c".data)
      [MetricsOp.runStart "t0".data,
       MetricsOp.attempt "t1".data "src".data "tech".data,
       MetricsOp.success "src".data 1,
       MetricsOp.runEnd "t2".data 1])) =
    some { technique := "tech".data, attempts := 1, successes := 1,
           success_rate := 100, items_found := 1, items_per_success := 1,
           recent_success_rate := 100, recent_items := 1,
           last_attempt := some "t1".data, status := "active".data } := by
  rw [c5_state_eval]
  simp only [get_summary, List.map_cons, List.map_nil, lookupA]
  simp only [if_true]
  simp only [sourceSummaryOf, lastN, List.filter, lookupA, List.countP_cons,
    List.countP_nil, List.map_cons, List.map_nil, List.sum_cons, List.sum_nil,
    List.length_cons, List.length_nil, List.drop]
  norm_num
  decide

/-- C5 counterexample: in a fresh ledger, after one run in which source `src`
is attempted once and that attempt succeeds with one item, `get_summary`
reports attempts = 1 but status `"active"`, not `"new"`: the status rule
tests the 100% lifetime rate against 50% before ever reaching the
`attempts ≤ 5` branch. -/
theorem young_source_status_cex :
    (lookupA "src".data (get_summary (applyOps (freshMetrics "c".data)
      [MetricsOp.runStart "t0".data,
       MetricsOp.attempt "t1".data "src".data "tech".data,
       MetricsOp.success "src".data 1,
       MetricsOp.runEnd "t2".data 1]))).map SourceSummary.attempts =
        some 1 ∧
    (lookupA "src".data (get_summary (applyOps (freshMetrics "c".data)
      [MetricsOp.runStart "t0".data,
       MetricsOp.attempt "t1".data "src".data "tech".data,
       MetricsOp.success "src".data 1,
       MetricsOp.runEnd "t2".data 1]))).map SourceSummary.status ≠
        some "new".data := by
  rw [c5_entry_eval]
  constructor
  · rfl
  · intro hx
    simp only [Option.map_some'] at hx
    have := Option.some.inj hx
    simp at this

/-- C5 amended: for a source attempted exactly once in a fresh ledger, with
the attempt recorded as a success yielding one item, `get_summary` reports
attempts = 1, successes = 1, itemsFound = 1, success rate 100% and status
`"active"` (rate > 50% takes precedence; `"new"` would be reported only with
rate ≤ 50% and attempts ≤ 5). -/
theorem young_source_summary_active :
    (lookupA "src".data (get_summary (applyOps (freshMetrics "c".data)
      [MetricsOp.runStart "t0".data,
       MetricsOp.attempt "t1".data "src".data "tech".data,
       MetricsOp.success "src".data 1,
       MetricsOp.runEnd "t2".data 1]))).map
        (fun e => (e.attempts, e.successes, e.items_found, e.success_rate,
          e.status)) =
      some (1, 1, 1, (100 : ℚ), "active".data) := by
  rw [c5_entry_eval]
  rfl

/-- C6 counterexample: the producer "Batch Brewing Company" resolves to the
known venue `batch-brewing` (exact alias hit), yet with an in-region location
the code still creates a `pending_review` AutoDiscoveredVenue, because the
gate only checks that the slug `batch-brewing-company` is not itself a venue
id — not that the name cannot be resolved. -/
theorem auto_discovery_gate_cex :
    resolvesToKnownVenue "Batch Brewing Company".data = true ∧
    is_sydney_suburb "Marrickville".data = true ∧
    lookupA (slugifyBrewery "Batch Brewing Company".data)
      ([] : List (Str × AutoVenue)) = none ∧
    maybeDiscoverVenue [] "Batch Brewing Company".data "Marrickville".data
        "t0".data =
      [(slugifyBrewery "Batch Brewing Company".data,
        { name := "Batch Brewing Company".data,
          location := "Marrickville".data,
          discovered_at := "t0".data,
          status := "pending_review".data })] := by decide

theorem c6_char_aux (brewery loc : Str) (a : List (Str × AutoVenue))
    (n : Str) :
    maybeDiscoverVenue a brewery loc n =
      if slugifyBrewery brewery ∉ EXISTING_VENUE_IDS ∧
          is_sydney_suburb loc = true ∧
          lookupA (slugifyBrewery brewery) a = none then
        a ++ [(slugifyBrewery brewery,
          { name := brewery, location := loc, discovered_at := n,
            status := "pending_review".data })]
      else a := by
  simp only [maybeDiscoverVenue, add_new_sydney_venue]
  by_cases h1 : slugifyBrewery brewery ∈ EXISTING_VENUE_IDS
  · rw [if_pos h1, if_neg (by simp [h1])]
  · rw [if_neg h1]
    by_cases h2 : is_sydney_suburb loc = true
    · rw [if_pos h2]
      cases h3 : lookupA (slugifyBrewery brewery) a with
      | some v => simp [h1, h2, h3]
      | none => simp [h1, h2, h3]
    · rw [if_neg h2, if_neg (by simp [h2])]

/-- C6 amended: an AutoDiscoveredVenue with status `pending_review` is
created if and only if the producer's slug is not an existing venue id, the
location text matches the regional keyword allow-list, and the slug is not
already recorded; re-registering the same producer is a no-op.  (The gate is
the slug test, not full resolution: a producer resolvable via alias or
substring match is still auto-discovered when its slug differs from the
venue id.) -/
theorem auto_discovery_gate_characterization
    (auto : List (Str × AutoVenue)) (brewery loc now now' : Str) :
    (maybeDiscoverVenue auto brewery loc now =
      if slugifyBrewery brewery ∉ EXISTING_VENUE_IDS ∧
          is_sydney_suburb loc = true ∧
          lookupA (slugifyBrewery brewery) auto = none then
        auto ++ [(slugifyBrewery brewery,
          { name := brewery, location := loc, discovered_at := now,
            status := "pending_review".data })]
      else auto) ∧
    maybeDiscoverVenue (maybeDiscoverVenue auto brewery loc now) brewery loc
        now' =
      maybeDiscoverVenue auto brewery loc now := by
  refine ⟨c6_char_aux brewery loc auto now, ?_⟩
  by_cases hc : slugifyBrewery brewery ∉ EXISTING_VENUE_IDS ∧
      is_sydney_suburb loc = true ∧
      lookupA (slugifyBrewery brewery) auto = none
  · rw [c6_char_aux brewery loc auto now, if_pos hc,
      c6_char_aux brewery loc _ now']
    rw [if_neg]
    intro hfull
    have hsome : lookupA (slugifyBrewery brewery)
        (auto ++ [(slugifyBrewery brewery,
          { name := brewery, location := loc, discovered_at := now,
            status := "pending_review".data })]) ≠ none := by
      rw [lookupA_append_of_none _ hc.2.2]
      simp [lookupA]
    exact hsome hfull.2.2
  · rw [c6_char_aux brewery loc auto now, if_neg hc,
      c6_char_aux brewery loc auto now', if_neg hc]

/-! ## MD5 embedding validation -/

/-- The padded MD5 message is always a whole number of 64-byte blocks, for
every input length (in particular for lengths ≡ 56..62 mod 64, where the
padding spills into a second block). -/
theorem md5Pad_length_aligned (msg : List Nat) :
    (md5Pad msg).length % 64 = 0 := by
  simp only [md5Pad, List.length_append, List.length_cons, List.length_nil,
    List.length_replicate, toLEBytes, List.length_map, List.length_range]
  omega

/-- The embedded MD5 agrees with the published digests (RFC 1321 test suite
values and `hashlib.md5`) on the empty message, on "abc", on the 62-byte
RFC alphabet vector, and on runs of 56, 62 and 64 "a" bytes — covering
lengths below, inside and above the 56..62 mod 64 padding boundary. -/
theorem md5_matches_reference_vectors :
    md5HexOfBytes [] = "d41d8cd98f00b204e9800998ecf8427e".data ∧
    md5HexOfBytes [97, 98, 99] =
      "900150983cd24fb0d6963f7d28e17f72".data ∧
    md5HexOfBytes (utf8Encode
      "ABCDEFGHIJKLMNOPQRSTUVWXYZabcdefghijklmnopqrstuvwxyz0123456789".data) =
      "d174ab98d277d9f5a5611c2c9f419d9f".data ∧
    md5HexOfBytes (List.replicate 56 97) =
      "3b0c8ac703f828b04c6c197006d17218".data ∧
    md5HexOfBytes (List.replicate 62 97) =
      "24612f0ce2c9d2cf2b022ef1e027a54f".data ∧
    md5HexOfBytes (List.replicate 64 97) =
      "014842d480b571495a4a0363793f7367".data := by decide

/-! ## Deduplication lemmas -/

theorem dedupAux_sublist (seen : List Str) (l : List ScrapedPost) :
    List.Sublist (dedupAux seen l) l := by
  induction l generalizing seen with
  | nil => simp [dedupAux]
  | cons p rest ih =>
    simp only [dedupAux]
    split
    · exact (ih seen).cons p
    · exact (ih _).cons₂ p

theorem dedupAux_not_mem_seen (seen : List Str) (l : List ScrapedPost) :
    ∀ y ∈ dedupAux seen l, get_content_hash y.content ∉ seen := by
  induction l generalizing seen with
  | nil => simp [dedupAux]
  | cons p rest ih =>
    simp only [dedupAux]
    split
    · exact ih seen
    · next hns =>
      intro y hy
      rcases List.mem_cons.mp hy with hy | hy
      · subst hy
        exact hns
      · have := ih _ y hy
        exact fun hmem => this (List.mem_cons_of_mem _ hmem)

theorem dedupAux_pairwise (seen : List Str) (l : List ScrapedPost) :
    (dedupAux seen l).Pairwise
      (fun a b => get_content_hash a.content ≠ get_content_hash b.content) := by
  induction l generalizing seen with
  | nil => simp [dedupAux]
  | cons p rest ih =>
    simp only [dedupAux]
    split
    · exact ih seen
    · refine List.Pairwise.cons ?_ (ih _)
      intro b hb he
      have hnm := dedupAux_not_mem_seen _ _ b hb
      exact hnm (by rw [← he]; exact List.mem_cons_self _ _)

theorem dedupAux_covers (seen : List Str) (l : List ScrapedPost) :
    ∀ x ∈ l, get_content_hash x.content ∉ seen →
      ∃ y ∈ dedupAux seen l,
        get_content_hash y.content = get_content_hash x.content := by
  induction l generalizing seen with
  | nil => simp
  | cons p rest ih =>
    intro x hx hxs
    rcases List.mem_cons.mp hx with hx | hx
    · subst hx
      simp only [dedupAux]
      rw [if_neg hxs]
      exact ⟨x, List.mem_cons_self _ _, rfl⟩
    · simp only [dedupAux]
      by_cases hp : get_content_hash p.content ∈ seen
      · rw [if_pos hp]
        exact ih seen x hx hxs
      · rw [if_neg hp]
        by_cases he : get_content_hash x.content = get_content_hash p.content
        · exact ⟨p, List.mem_cons_self _ _, he.symm⟩
        · have hxs' : get_content_hash x.content ∉
              get_content_hash p.content :: seen := by
            intro hmem
            rcases List.mem_cons.mp hmem with hmem | hmem
            · exact he hmem
            · exact hxs hmem
          obtain ⟨y, hy, hye⟩ := ih _ x hx hxs'
          exact ⟨y, List.mem_cons_of_mem _ hy, hye⟩

theorem dedupAux_find_first (seen : List Str) (l : List ScrapedPost) :
    ∀ y ∈ dedupAux seen l,
      l.find? (fun p =>
        decide (get_content_hash p.content = get_content_hash y.content)) =
        some y := by
  induction l generalizing seen with
  | nil => simp [dedupAux]
  | cons p rest ih =>
    intro y hy
    simp only [dedupAux] at hy
    by_cases hp : get_content_hash p.content ∈ seen
    · rw [if_pos hp] at hy
      have hyns := dedupAux_not_mem_seen _ _ y hy
      have hne : get_content_hash p.content ≠ get_content_hash y.content := by
        intro he
        exact hyns (he ▸ hp)
      rw [List.find?_cons_of_neg _ (by simp [hne])]
      exact ih seen y hy
    · rw [if_neg hp] at hy
      rcases List.mem_cons.mp hy with hy | hy
      · subst hy
        rw [List.find?_cons_of_pos _ (by simp)]
      · have hyns := dedupAux_not_mem_seen _ _ y hy
        have hne : get_content_hash p.content ≠ get_content_hash y.content := by
          intro he
          exact hyns (by rw [← he]; exact List.mem_cons_self _ _)
        rw [List.find?_cons_of_neg _ (by simp [hne])]
        exact ih _ y hy

/-- C4: the controller's dedup output is a sublist of its input (encounter
order preserved), its content hashes are pairwise distinct, every input
item's hash is represented, and every kept item is exactly the first
occurrence of its hash in the input — so two items with identical content
yield exactly one output item. -/
theorem dedup_first_occurrence_set_like (posts : List ScrapedPost) :
    List.Sublist (dedupPosts posts) posts ∧
    (dedupPosts posts).Pairwise
      (fun a b => get_content_hash a.content ≠ get_content_hash b.content) ∧
    (∀ x ∈ posts, ∃ y ∈ dedupPosts posts,
      get_content_hash y.content = get_content_hash x.content) ∧
    (∀ y ∈ dedupPosts posts,
      posts.find? (fun p =>
        decide (get_content_hash p.content = get_content_hash y.content)) =
        some y) :=
  ⟨dedupAux_sublist [] posts, dedupAux_pairwise [] posts,
   fun x hx => dedupAux_covers [] posts x hx (by simp),
   dedupAux_find_first [] posts⟩

/-- C7 counterexample: a run that scrapes zero posts does not replace the
previously persisted document — `main` writes the output file only inside
`if unique_posts:` — so the persisted snapshot remains the previous run's
document, not this run's empty snapshot. -/
theorem empty_run_snapshot_cex :
    runPersist (some ⟨"t0".data, [samplePost "x".data "t0".data], 1⟩) []
        "t1".data =
      some ⟨"t0".data, [samplePost "x".data "t0".data], 1⟩ ∧
    (some ⟨"t0".data, [samplePost "x".data "t0".data], 1⟩ :
        Option MergedOutput) ≠
      some ⟨"t1".data, [], 0⟩ := by decide

/-- C7 amended: when the run's deduplicated set is nonempty, the persisted
document is exactly that set with its count and the run timestamp,
independent of whatever was persisted before (full replacement); when the
run produced zero unique items, the output file is not rewritten and the
previous run's document survives. -/
theorem run_snapshot_replacement (prev : Option MergedOutput)
    (all_posts : List ScrapedPost) (now : Str) :
    ((dedupPosts all_posts).isEmpty = false →
      runPersist prev all_posts now =
        some ⟨now, dedupPosts all_posts, (dedupPosts all_posts).length⟩) ∧
    ((dedupPosts all_posts).isEmpty = true →
      runPersist prev all_posts now = prev) ∧
    (∀ prev', (dedupPosts all_posts).isEmpty = false →
      runPersist prev all_posts now = runPersist prev' all_posts now) := by
  refine ⟨?_, ?_, ?_⟩
  · intro he
    simp [runPersist, saveRunOutput, he]
  · intro he
    simp [runPersist, saveRunOutput, he]
  · intro prev' he
    simp [runPersist, saveRunOutput, he]

/-- C8 counterexample: the contents `"a b"` and `"a  b"` differ only in
whitespace (their spec-normalized forms coincide), yet `get_content_hash`
gives them different digests — it hashes the raw content with no whitespace
collapsing — and two posts bearing them both survive deduplication. -/
theorem whitespace_hash_cex :
    specNormalizeContent "a b".data = specNormalizeContent "a  b".data ∧
    get_content_hash "a b".data ≠ get_content_hash "a  b".data ∧
    dedupPosts [samplePost "a b".data "t".data,
        samplePost "a  b".data "t".data] =
      [samplePost "a b".data "t".data, samplePost "a  b".data "t".data] := by
  decide

/-- C8 amended: the dedup key is the MD5 hex digest of the raw UTF-8 content
body (no whitespace normalization); two candidate items with byte-identical
content receive equal hashes and deduplicate to a single item. -/
theorem identical_content_dedup (p q : ScrapedPost)
    (h : p.content = q.content) : dedupPosts [p, q] = [p] := by
  simp [dedupPosts, dedupAux, h]

/-- C8 witness: two posts with the same content and different scrape times
deduplicate to the first. -/
theorem identical_content_dedup_witness :
    (samplePost "a b".data "t1".data).content =
      (samplePost "a b".data "t2".data).content ∧
    dedupPosts [samplePost "a b".data "t1".data,
        samplePost "a b".data "t2".data] =
      [samplePost "a b".data "t1".data] :=
  ⟨rfl, identical_content_dedup _ _ rfl⟩

/-- C3 counterexample: with every page request raising, the generic website
fetcher still records exactly one success (with 0 items) and records no error
at all — contradicting "recordError exactly once on any exception"; and on a
happy path finding six keyword-bearing texts it records success with n = 6
while returning only 5 items — contradicting "n equal to the number of items
the fetcher returns". -/
theorem fetcher_error_contract_cex :
    scrape_generic_website (fun _ => none) "v".data "http://x/".data
        "t".data =
      ([], [MetricEvent.attempt "v-website".data "website-generic".data,
            MetricEvent.success "v-website".data 0]) ∧
    countErrorEvents (scrape_generic_website (fun _ => none) "v".data
      "http://x/".data "t".data).2 = 0 ∧
    successCounts (scrape_generic_website
      (fun p => if p = ([] : Str) then
        some (200,
          [ "new release beer alpha number one".data,
            "new release beer bravo number two".data,
            "new release beer charlie number three".data,
            "new release beer delta number four".data,
            "new release beer echo number five".data,
            "new release beer foxtrot number six".data ])
        else none)
      "v".data "http://x/".data "t".data).2 = [6] ∧
    (scrape_generic_website
      (fun p => if p = ([] : Str) then
        some (200,
          [ "new release beer alpha number one".data,
            "new release beer bravo number two".data,
            "new release beer charlie number three".data,
            "new release beer delta number four".data,
            "new release beer echo number five".data,
            "new release beer foxtrot number six".data ])
        else none)
      "v".data "http://x/".data "t".data).1.length = 5 := by decide

/-- C3 amended: the mountain-culture and generic website fetchers record
exactly one attempt and then exactly one success — with the count of all
collected posts, which can exceed the at-most-five posts actually returned —
for every page environment, and never record an error: per-path exceptions
are swallowed by `except: continue`, so a failing source is reported as a
success with its partial (possibly zero) yield rather than via recordError.
Exceptions never propagate out of the fetcher. -/
theorem website_fetcher_trace_shape
    (envm : Str → Option (List Str)) (envg : Str → Option (Nat × List Str))
    (venue_id url now : Str) :
    (scrape_website_mountain_culture envm now).2 =
      [MetricEvent.attempt "mountain-culture-website".data
        "website-beautifulsoup".data,
       MetricEvent.success "mountain-culture-website".data
        (mcLoop envm now MC_PATHS []).length] ∧
    (scrape_website_mountain_culture envm now).1 =
      (mcLoop envm now MC_PATHS []).take 5 ∧
    countErrorEvents (scrape_website_mountain_culture envm now).2 = 0 ∧
    countSuccessEvents (scrape_website_mountain_culture envm now).2 = 1 ∧
    (scrape_generic_website envg venue_id url now).2 =
      [MetricEvent.attempt (venue_id ++ "-website".data)
        "website-generic".data,
       MetricEvent.success (venue_id ++ "-website".data)
        (genLoop envg venue_id url now GEN_PATHS []).length] ∧
    (scrape_generic_website envg venue_id url now).1 =
      (genLoop envg venue_id url now GEN_PATHS []).take 5 ∧
    countErrorEvents (scrape_generic_website envg venue_id url now).2 = 0 ∧
    countSuccessEvents (scrape_generic_website envg venue_id url now).2 = 1 :=
  ⟨rfl, rfl, rfl, rfl, rfl, rfl, rfl, rfl⟩
